import Mathlib

/-!
Shallow embedding of the frame-indexing core of `QtImageStackViewer.py`
(PyQtImageViewer repository): the stack-descriptor logic of `updateViewer`,
the frame-resolver logic of `updateFrame`, and the navigation logic of
`setCurrentIndexes`, `wheelEvent`, `play`, `pause` and `open`.

GUI widgets are abstracted to their observable state: a scrollbar is a
`(value, maximum)` pair with minimum 0; the image viewer surface only
receives the produced frame buffer, which we model explicitly.
-/

/-- Python exception kinds raised by the viewer's addressing code. -/
inductive PyErr where
  | typeError
  | indexError
  | eofError
deriving DecidableEq

/-- An in-memory N-dimensional numeric array (`numpy.ndarray`): a shape and a
total map from multi-indexes to element values. -/
structure NDArray where
  shape : List Nat
  data : List Nat → Int

/-- Python `list.extend` mutates its receiver in place and returns `None`.
`updateFrame` (line 271) binds the RESULT of `extend`, so the bound name
`indexes` is `None`, modelled as `Option.none`. -/
def listExtendResult (xs ys : List (List Nat)) : Option (List (List Nat)) :=
  none

/-- `numpy.ix_` open-mesh indexing: selecting with one index list per axis
yields an array whose shape is the per-axis list lengths and whose entry at a
multi-index is the source entry at the per-axis selected indexes. -/
def ixSlice (arr : NDArray) (ix : List (List Nat)) : NDArray :=
  NDArray.mk (ix.map List.length)
    (fun midx => arr.data ((ix.zip midx).map (fun p => p.1.getD p.2 0)))

/-- `updateFrame`, ndarray branch (`QtImageStackViewer.py` lines 268-273):

    rows = np.arange(shape[0]); cols = np.arange(shape[1])
    indexes = [rows, cols].extend([[i] for i in self.currentIndexes()])
    self._currentFrame = self._image[np.ix_(*indexes)]

Since `extend` returns `None`, `indexes` is `None` and unpacking it with
`np.ix_(*indexes)` raises `TypeError`; the `some` branch below records what
the slice would be if `extend` had returned the extended list. -/
def updateFrameDense (arr : NDArray) (indexes : List Nat) : Except PyErr NDArray :=
  let rows := List.range (arr.shape.getD 0 0)
  let cols := List.range (arr.shape.getD 1 0)
  match listExtendResult [rows, cols] (indexes.map (fun i => [i])) with
  | some ix => Except.ok (ixSlice arr ix)
  | none => Except.error PyErr.typeError

/-- `updateViewer`, ndarray branch (lines 208-224): one scrollbar per array
dimension beyond the first two; for each, `setRange(0, shape[i+2])` and
`setValue(0)`. Each entry is the resulting `(value, maximum)` pair. -/
def denseScrollbars (shape : List Nat) : List (Nat × Nat) :=
  (List.range (shape.length - 2)).map (fun i => (0, shape.getD (i + 2) 0))

/-- A concrete 100 x 100 x 5 dense array used in the spec's scenario. -/
def arr100 : NDArray :=
  NDArray.mk [100, 100, 5] (fun midx => Int.ofNat (midx.foldl Nat.add 0))

/-- C1: the claim says resolving a dense-array frame selects the full extent
of axes 0 and 1 and the given index per later axis, returning that slice.
The code instead binds `indexes` to the `None` returned by `list.extend`, so
`np.ix_(*indexes)` raises `TypeError` for every dense array and every index
vector: the ndarray branch of `updateFrame` never produces a slice at all. -/
theorem denseResolve_always_typeError (arr : NDArray) (indexes : List Nat) :
    updateFrameDense arr indexes = Except.error PyErr.typeError := rfl

/-- C2: for a (100,100,5) array the code does create exactly one navigation
control (count is as claimed, and a 2D array yields none), but its range is
set with `setRange(0, shape[i+2])`, i.e. `[0, 5]`, not the claimed
`[0, size-1] = [0, 4]`: the dense branch omits the `- 1` that the lazy
branch applies. -/
theorem denseScrollbars_range_overshoot :
    denseScrollbars [100, 100, 5] = [(0, 5)]
      ∧ denseScrollbars [100, 100, 5] ≠ [(0, 4)]
      ∧ denseScrollbars [100, 100] = [] := by
  refine ⟨rfl, ?_, rfl⟩
  decide

/-- A lazily-decoded multi-frame image file handle (PIL `Image` file object):
channel count, frame count and frame size are metadata known up front; pixel
data of frame `f` is addressed as `px f row col channel`; `qOk f` records
whether `toqimage` succeeds on frame `f` (it raises `ValueError` otherwise). -/
structure PILFile where
  nChannels : Nat
  nFrames : Nat
  height : Nat
  width : Nat
  px : Nat → Nat → Nat → Nat → Int
  qOk : Nat → Bool

/-- Observable side effects of one `updateFrame` call on the lazy path:
seeking the file handle, decoding the current frame to a numpy array,
decoding it to a display image, or failing to do the latter. -/
inductive Ev where
  | seek (f : Nat)
  | decodeArray (f : Nat)
  | decodeQImage (f : Nat)
  | qimageFail (f : Nat)
deriving DecidableEq

/-- The materialized current-frame buffer handed to the renderer: a
single-channel 2D array, a multi-channel array, or a display image (QImage);
the tag records which representation the renderer receives. -/
inductive FrameBuf where
  | gray (h w : Nat) (data : Nat → Nat → Int)
  | multi (h w c : Nat) (data : Nat → Nat → Nat → Int)
  | qimg (h w c : Nat) (data : Nat → Nat → Nat → Int)

/-- Successful result of a lazy `updateFrame`: the file handle's seek
position afterwards, the ordered trace of side effects, and the frame. -/
structure LazyOk where
  pos : Nat
  trace : List Ev
  frame : FrameBuf

/-- A raised Python exception on the lazy path, together with the seek
position at the moment of the raise and the side effects already performed
(the state mutated so far is NOT rolled back). -/
structure LazyErr where
  err : PyErr
  pos : Nat
  trace : List Ev

/-- `updateFrame`, PIL branch (lines 274-293):

    if n_frames > 1: frameIndex = indexes[-1]; self._image.seek(frameIndex)
    if n_channels > 1 and self._separateChannels:
        channelIndex = indexes[0]
        self._currentFrame = np.array(self._image)[:,:,channelIndex]
    else:
        try: self._currentFrame = QImage(self._image.toqimage())
        except ValueError: self._currentFrame = np.array(self._image)

`indexes[-1]` / `indexes[0]` raise `IndexError` on an empty list; PIL `seek`
past the last frame raises `EOFError`; numpy channel selection decodes the
frame first and raises `IndexError` when the channel index is out of range. -/
def updateFrameLazy (img : PILFile) (sep : Bool) (pos0 : Nat) (indexes : List Nat) :
    Except LazyErr LazyOk :=
  let step1 : Except LazyErr (Nat × List Ev) :=
    if 1 < img.nFrames then
      match indexes.getLast? with
      | none => Except.error (LazyErr.mk PyErr.indexError pos0 [])
      | some f =>
        if f < img.nFrames then Except.ok (f, [Ev.seek f])
        else Except.error (LazyErr.mk PyErr.eofError pos0 [])
    else Except.ok (pos0, [])
  match step1 with
  | Except.error e => Except.error e
  | Except.ok (pos, tr) =>
    if 1 < img.nChannels ∧ sep then
      match indexes.head? with
      | none => Except.error (LazyErr.mk PyErr.indexError pos tr)
      | some ch =>
        if ch < img.nChannels then
          Except.ok (LazyOk.mk pos (tr ++ [Ev.decodeArray pos])
            (FrameBuf.gray img.height img.width (fun r c => img.px pos r c ch)))
        else Except.error (LazyErr.mk PyErr.indexError pos (tr ++ [Ev.decodeArray pos]))
    else
      if img.qOk pos then
        Except.ok (LazyOk.mk pos (tr ++ [Ev.decodeQImage pos])
          (FrameBuf.qimg img.height img.width img.nChannels (img.px pos)))
      else
        Except.ok (LazyOk.mk pos (tr ++ [Ev.qimageFail pos, Ev.decodeArray pos])
          (if 1 < img.nChannels then
            FrameBuf.multi img.height img.width img.nChannels (img.px pos)
          else
            FrameBuf.gray img.height img.width (fun r c => img.px pos r c 0)))

/-- Role of a navigation axis as the resolver reads it. -/
inductive AxisKind where
  | channel
  | frame
deriving DecidableEq

/-- `updateViewer`, PIL branch (lines 225-252), descriptor view: the ordered
axes the created scrollbars navigate, paired with their extents. A channel
axis (size `n_channels`, scrollbar range `[0, n_channels-1]`) is present
exactly when `n_channels > 1` and channel separation is on; a frame axis
(size `n_frames`, range `[0, n_frames-1]`) is present exactly when
`n_frames > 1`; the channel scrollbar, when present, is created first. -/
def lazyAxisSet (img : PILFile) (sep : Bool) : List (AxisKind × Nat) :=
  (if 1 < img.nChannels ∧ sep then [(AxisKind.channel, img.nChannels)] else []) ++
  (if 1 < img.nFrames then [(AxisKind.frame, img.nFrames)] else [])

/-- `updateViewer`, PIL branch: the scrollbars themselves as
`(value, maximum)` pairs after the update — `setRange(0, n_channels - 1)`
and `setRange(0, n_frames - 1)`, values reset to 0. -/
def lazyScrollbars (img : PILFile) (sep : Bool) : List (Nat × Nat) :=
  (if 1 < img.nChannels ∧ sep then [(0, img.nChannels - 1)] else []) ++
  (if 1 < img.nFrames then [(0, img.nFrames - 1)] else [])

/-- The scrollbar list is the axis set with ranges `[0, size - 1]`. -/
theorem lazyScrollbars_eq_map (img : PILFile) (sep : Bool) :
    lazyScrollbars img sep = (lazyAxisSet img sep).map (fun a => (0, a.2 - 1)) := by
  unfold lazyScrollbars lazyAxisSet
  by_cases hc : 1 < img.nChannels ∧ sep = true <;>
    by_cases hf : 1 < img.nFrames <;> simp [hc, hf]

/-- A concrete lazy source: 3 channels, 10 frames, 4 x 4 pixels, display
decode always succeeds. -/
def samplePIL : PILFile :=
  PILFile.mk 3 10 4 4
    (fun f r c ch => Int.ofNat (f * 1000 + r * 100 + c * 10 + ch))
    (fun _ => true)

/-- Like `samplePIL` but display decode fails on frame 2. -/
def pilMixed : PILFile :=
  PILFile.mk 3 10 4 4
    (fun f r c ch => Int.ofNat (f * 1000 + r * 100 + c * 10 + ch))
    (fun f => decide (f ≠ 2))

/-- A lazy source with 3 channels but a single frame. -/
def pil31 : PILFile :=
  PILFile.mk 3 1 4 4 (fun f r c ch => Int.ofNat (f + r + c + ch)) (fun _ => true)

/-- C3: for a lazy source with more than one channel and more than one frame
and channel separation enabled, resolving with index vector `[c, f]` seeks
the source to frame `f` (read from the LAST position of the index vector),
then decodes that frame and extracts single channel `c` (read from the FIRST
position), returning a single-channel 2D buffer; the trace shows the seek
strictly precedes the decode/extraction. -/
theorem lazyResolve_sep_seek_then_extract (img : PILFile) (pos0 c f : Nat)
    (hC : 1 < img.nChannels) (hF : 1 < img.nFrames)
    (hc : c < img.nChannels) (hf : f < img.nFrames) :
    updateFrameLazy img true pos0 [c, f] =
      Except.ok (LazyOk.mk f [Ev.seek f, Ev.decodeArray f]
        (FrameBuf.gray img.height img.width (fun r col => img.px f r col c))) := by
  have hlast : ([c, f] : List Nat).getLast? = some f := rfl
  have hhead : ([c, f] : List Nat).head? = some c := rfl
  simp [updateFrameLazy, hF, hf, hC, hc, hlast, hhead]

/-- C3 witness: the spec scenario — 3 channels, 10 frames, separation on,
index vector `[1, 4]` seeks frame 4 and extracts channel 1. -/
theorem lazyResolve_sep_seek_then_extract_witness :
    updateFrameLazy samplePIL true 0 [1, 4] =
      Except.ok (LazyOk.mk 4 [Ev.seek 4, Ev.decodeArray 4]
        (FrameBuf.gray samplePIL.height samplePIL.width
          (fun r col => samplePIL.px 4 r col 1))) :=
  lazyResolve_sep_seek_then_extract samplePIL 0 1 4
    (by decide) (by decide) (by decide) (by decide)

/-- C4: the lazy-source descriptor contains a channel axis of size
`n_channels` exactly when `n_channels > 1` and channel separation is on, and
a frame axis of size `n_frames` exactly when `n_frames > 1`; it has no other
entries; the channel axis always precedes the frame axis; when both counts
are at most 1 it is empty; and it depends only on the source's metadata
(channel and frame counts), never on pixel data or decodability. -/
theorem lazyAxisSet_structure (img img2 : PILFile) (sep : Bool)
    (hC : img.nChannels = img2.nChannels) (hF : img.nFrames = img2.nFrames) :
    lazyAxisSet img sep = lazyAxisSet img2 sep
  ∧ ((AxisKind.channel, img.nChannels) ∈ lazyAxisSet img sep
      ↔ (1 < img.nChannels ∧ sep = true))
  ∧ ((AxisKind.frame, img.nFrames) ∈ lazyAxisSet img sep ↔ 1 < img.nFrames)
  ∧ (∀ k s, (k, s) ∈ lazyAxisSet img sep →
      (k = AxisKind.channel ∧ s = img.nChannels)
        ∨ (k = AxisKind.frame ∧ s = img.nFrames))
  ∧ List.Sublist ((lazyAxisSet img sep).map Prod.fst)
      [AxisKind.channel, AxisKind.frame]
  ∧ (img.nChannels ≤ 1 → img.nFrames ≤ 1 → lazyAxisSet img sep = []) := by
  unfold lazyAxisSet
  rw [hC, hF]
  by_cases hc : 1 < img2.nChannels ∧ sep = true <;>
    by_cases hf : 1 < img2.nFrames <;>
      simp [hc, hf, hC, hF] <;> omega

/-- C4 witness: two sources sharing metadata (3 channels, 10 frames) but
differing in pixel-level behavior give the same descriptor, namely a channel
axis then a frame axis. -/
theorem lazyAxisSet_structure_witness :
    lazyAxisSet samplePIL true = lazyAxisSet pilMixed true
  ∧ lazyAxisSet samplePIL true = [(AxisKind.channel, 3), (AxisKind.frame, 10)] :=
  ⟨(lazyAxisSet_structure samplePIL pilMixed true rfl rfl).1, by decide⟩

/-- C5 counterexample: the claim fails on the code in two ways at concrete
inputs. (1) On the lazy path (3 channels, 10 frames, separation on), index
vector `[3, 4]` — channel index equal to the channel count — does raise
`IndexError`, but only AFTER the source has been seeked to frame 4 and the
frame decoded: there is no bound check before seek/decode, and the raise
leaves the source position mutated (the trace records the prior seek and
decode). (2) On the dense path, resolving with every index equal to
`size - 1` (here `[4]` for extent 5) does not succeed: it raises `TypeError`
because of the `list.extend` slip. -/
theorem resolve_bounds_cex :
    updateFrameLazy samplePIL true 0 [3, 4] =
      Except.error (LazyErr.mk PyErr.indexError 4 [Ev.seek 4, Ev.decodeArray 4])
  ∧ updateFrameDense arr100 [4] = Except.error PyErr.typeError := ⟨rfl, rfl⟩

/-- C5 amended: on the lazy path with more than one channel and more than
one frame and separation enabled: a channel index equal to the channel count
raises `IndexError`, but only after the frame seek and decode have occurred
(the error carries the mutated position and the seek/decode trace — no
up-front bound check, so a half-updated source position is possible); a
frame index equal to the frame count raises `EOFError` at the seek itself,
before any decode; and resolving with every index equal to `size - 1`
succeeds. -/
theorem resolve_bounds_amended (img : PILFile) (pos0 : Nat)
    (hC : 1 < img.nChannels) (hF : 1 < img.nFrames) :
    updateFrameLazy img true pos0 [img.nChannels, img.nFrames - 1] =
      Except.error (LazyErr.mk PyErr.indexError (img.nFrames - 1)
        [Ev.seek (img.nFrames - 1), Ev.decodeArray (img.nFrames - 1)])
  ∧ updateFrameLazy img true pos0 [0, img.nFrames] =
      Except.error (LazyErr.mk PyErr.eofError pos0 [])
  ∧ updateFrameLazy img true pos0 [img.nChannels - 1, img.nFrames - 1] =
      Except.ok (LazyOk.mk (img.nFrames - 1)
        [Ev.seek (img.nFrames - 1), Ev.decodeArray (img.nFrames - 1)]
        (FrameBuf.gray img.height img.width
          (fun r c => img.px (img.nFrames - 1) r c (img.nChannels - 1)))) := by
  have hf1 : img.nFrames - 1 < img.nFrames := by omega
  have hc1 : img.nChannels - 1 < img.nChannels := by omega
  have hcc : ¬ img.nChannels < img.nChannels := lt_irrefl _
  have hff : ¬ img.nFrames < img.nFrames := lt_irrefl _
  refine ⟨?_, ?_, ?_⟩ <;>
    simp [updateFrameLazy, hC, hF, hf1, hc1, hcc, hff,
      List.getLast?, List.getLast, List.head?]

/-- C5 amended, witness at `samplePIL` (3 channels, 10 frames): channel
index 3 fails after seeking frame 9; frame index 10 fails at the seek; the
maximal in-range vector `[2, 9]` succeeds. -/
theorem resolve_bounds_amended_witness :
    updateFrameLazy samplePIL true 0 [3, 9] =
      Except.error (LazyErr.mk PyErr.indexError 9 [Ev.seek 9, Ev.decodeArray 9])
  ∧ updateFrameLazy samplePIL true 0 [0, 10] =
      Except.error (LazyErr.mk PyErr.eofError 0 [])
  ∧ updateFrameLazy samplePIL true 0 [2, 9] =
      Except.ok (LazyOk.mk 9 [Ev.seek 9, Ev.decodeArray 9]
        (FrameBuf.gray samplePIL.height samplePIL.width
          (fun r c => samplePIL.px 9 r c 2))) :=
  resolve_bounds_amended samplePIL 0 (by decide) (by decide)

/-- Body of the `play` loop (lines 355-360): at step `k` the loop sets the
scrollbar to value `i`, re-resolves the frame, processes pending events, and
then checks the cooperative pause flag — `p k = true` means a pause request
had arrived by the end of step `k`'s event processing, so the loop breaks
before the next value. Returns the list of values visited (each visited
value is also re-resolved). -/
def playGo (p : Nat → Bool) : Nat → Nat → Nat → List Nat
  | 0, _, _ => []
  | n + 1, i, k => i :: (if p k then [] else playGo p n (i + 1) (k + 1))

/-- `play` loop over `range(first, last + 1)` for a scrollbar currently at
`v0` with maximum `m`. -/
def playVisited (v0 m : Nat) (p : Nat → Bool) : List Nat :=
  playGo p (m + 1 - v0) v0 0

/-- `play` (lines 349-361): returns immediately when there are no
scrollbars; otherwise iterates the LAST scrollbar from its current value
through its maximum. -/
def play (sbs : List (Nat × Nat)) (p : Nat → Bool) : List Nat :=
  match sbs.getLast? with
  | none => []
  | some vm => playVisited vm.1 vm.2 p

theorem playGo_nopause (n : Nat) : ∀ (i k : Nat),
    playGo (fun _ => false) n i k = List.range' i n := by
  induction n with
  | zero => intro i k; rfl
  | succ n ih =>
    intro i k
    simp [playGo, List.range'_succ, ih]

theorem playGo_pause_at (kp : Nat) : ∀ (n i k : Nat), k ≤ kp →
    playGo (fun j => decide (kp ≤ j)) n i k = List.range' i (min (kp + 1 - k) n) := by
  intro n
  induction n with
  | zero => intro i k hk; simp [playGo]
  | succ n ih =>
    intro i k hk
    by_cases h : kp ≤ k
    · have hkk : kp = k := le_antisymm h hk
      subst hkk
      have : min (kp + 1 - kp) (n + 1) = 1 := by omega
      simp [playGo, this, List.range'_succ]
    · have hlt : k < kp := Nat.lt_of_not_le h
      have hmin : min (kp + 1 - k) (n + 1) = min (kp + 1 - (k + 1)) n + 1 := by omega
      simp only [playGo, decide_eq_true_eq, if_neg h, ih (i + 1) (k + 1) hlt,
        hmin, List.range'_succ]

/-- C6 counterexample: for a lazy source with 3 channels and a single frame
and channel separation on, NO frame axis exists (the axis set holds only the
channel axis), yet a play request is not a no-op: the code drives the last
scrollbar — here the channel scrollbar — visiting channel indexes 0, 1, 2
and re-resolving at each. -/
theorem play_noop_condition_cex :
    lazyAxisSet pil31 true = [(AxisKind.channel, 3)]
  ∧ play (lazyScrollbars pil31 true) (fun _ => false) = [0, 1, 2] := by
  constructor
  · decide
  · rfl

/-- C6 amended: a play request is a no-op only when there are no navigation
controls at all; otherwise it drives the LAST control (the frame axis when
one exists, but e.g. the channel axis when it is last), setting it to every
value from its current value through its maximum — the current value is
re-set and re-resolved first, then the index advances by 1 per step — and it
stops automatically at the maximum, or one step after a pause request
arrives (the flag is checked once per step, after that step's resolve); no
reverse playback, no looping. In particular, playing from value 2 with
maximum 4 visits 2, 3, 4 and stops; with a pause arriving during step 1
(after reaching value 3) it halts before reaching 4. -/
theorem play_amended (v0 m kp : Nat) :
    play [] (fun _ => false) = []
  ∧ playVisited v0 m (fun _ => false) = List.range' v0 (m + 1 - v0)
  ∧ playVisited v0 m (fun j => decide (kp ≤ j)) =
      List.range' v0 (min (kp + 1) (m + 1 - v0))
  ∧ playVisited 2 4 (fun _ => false) = [2, 3, 4]
  ∧ playVisited 2 4 (fun j => decide (1 ≤ j)) = [2, 3] := by
  refine ⟨rfl, playGo_nopause _ _ _, ?_, by decide, by decide⟩
  simpa using playGo_pause_at kp (m + 1 - v0) v0 0 (Nat.zero_le kp)

/-- C7: resolving a lazy multi-channel source without channel separation
decodes the current frame with all channels intact as one composite buffer;
when the display-format decode (`toqimage`) fails, the code falls back to
decoding the frame as a raw numeric array, and in both cases the call
returns `ok` — the decode failure is never surfaced to the caller. -/
theorem lazyResolve_composite_fallback (img : PILFile) (pos0 f : Nat)
    (hF : 1 < img.nFrames) (hf : f < img.nFrames) (hC : 1 < img.nChannels) :
    (img.qOk f = true →
      updateFrameLazy img false pos0 [f] =
        Except.ok (LazyOk.mk f [Ev.seek f, Ev.decodeQImage f]
          (FrameBuf.qimg img.height img.width img.nChannels (img.px f))))
  ∧ (img.qOk f = false →
      updateFrameLazy img false pos0 [f] =
        Except.ok (LazyOk.mk f [Ev.seek f, Ev.qimageFail f, Ev.decodeArray f]
          (FrameBuf.multi img.height img.width img.nChannels (img.px f)))) := by
  constructor <;> intro hq <;>
    simp [updateFrameLazy, hF, hf, hC, hq, List.getLast?, List.getLast]

/-- C7 witness: on `pilMixed` the display decode fails on frame 2 and the
resolver falls back to the raw composite array, still returning `ok`. -/
theorem lazyResolve_composite_fallback_witness :
    pilMixed.qOk 2 = false
  ∧ updateFrameLazy pilMixed false 0 [2] =
      Except.ok (LazyOk.mk 2 [Ev.seek 2, Ev.qimageFail 2, Ev.decodeArray 2]
        (FrameBuf.multi pilMixed.height pilMixed.width pilMixed.nChannels
          (pilMixed.px 2))) :=
  ⟨rfl, (lazyResolve_composite_fallback pilMixed 0 2
    (by decide) (by decide) (by decide)).2 rfl⟩

/-- C8 counterexample: the claim quantifies over every source, but on a
dense-array source a resolve call produces no current frame at all — it
raises `TypeError` (the `list.extend` slip) — so "each call produces exactly
one current frame" fails at this concrete input. -/
theorem resolve_idempotent_cex :
    (updateFrameDense arr100 [3]).isOk = false := rfl

/-- C8 amended: on the lazy path resolve is idempotent — if a call from
position `pos0` succeeds with result `r` (one frame, one final position, one
trace), then an immediately repeated call with the same source, separation
flag and index vector, starting from the post-state position `r.pos`, yields
the bit-identical result `r`; a successful call produces exactly the one
frame carried by `r`. (The dense path never produces a frame, see C1.) -/
theorem lazyResolve_idempotent (img : PILFile) (sep : Bool) (pos0 : Nat)
    (indexes : List Nat) (r : LazyOk)
    (h : updateFrameLazy img sep pos0 indexes = Except.ok r) :
    updateFrameLazy img sep r.pos indexes = Except.ok r := by
  unfold updateFrameLazy at h ⊢
  by_cases hF : 1 < img.nFrames
  · cases hl : indexes.getLast? with
    | none => simp [hF, hl] at h
    | some f =>
      by_cases hf : f < img.nFrames
      · simp only [if_pos hF, hl, if_pos hf] at h ⊢
        exact h
      · simp [hF, hl, hf] at h
  · simp only [if_neg hF] at h ⊢
    by_cases hCs : 1 < img.nChannels ∧ sep
    · cases hh : indexes.head? with
      | none => simp [hCs, hh] at h
      | some ch =>
        by_cases hch : ch < img.nChannels
        · simp only [if_pos hCs, hh, if_pos hch] at h ⊢
          have hr := Except.ok.inj h
          subst hr
          exact h
        · simp [hCs, hh, hch] at h
    · by_cases hq : img.qOk pos0
      · simp only [if_neg hCs, hq, if_pos] at h
        have hr := Except.ok.inj h
        subst hr
        simp [hCs, hq]
      · simp only [if_neg hCs] at h
        rw [if_neg (by simp [hq])] at h
        have hr := Except.ok.inj h
        subst hr
        simp [hCs, hq]

/-- C8 witness: repeating the spec-scenario resolve from its post-state
position 4 returns the identical buffer. -/
theorem lazyResolve_idempotent_witness :
    updateFrameLazy samplePIL true 4 [1, 4] =
      Except.ok (LazyOk.mk 4 [Ev.seek 4, Ev.decodeArray 4]
        (FrameBuf.gray samplePIL.height samplePIL.width
          (fun r c => samplePIL.px 4 r c 1))) :=
  lazyResolve_idempotent samplePIL true 0 [1, 4]
    (LazyOk.mk 4 [Ev.seek 4, Ev.decodeArray 4]
      (FrameBuf.gray samplePIL.height samplePIL.width
        (fun r c => samplePIL.px 4 r c 1))) rfl

/-- `open` (lines 135-139) with an explicit filepath:

    if len(filepath) and os.path.isfile(filepath):
        self.setImage(Image.open(filepath))

`isfile` models `os.path.isfile`, `imageAt` models `Image.open`, `cur` is
the stored image source before the call; the returned value is the stored
image source after the call. -/
def openFile (isfile : String → Bool) (imageAt : String → PILFile)
    (cur : Option PILFile) (filepath : String) : Option PILFile :=
  if 0 < filepath.length ∧ isfile filepath then some (imageAt filepath) else cur

/-- C9: opening an empty path, or a path that does not name an existing
file, performs no load and does not raise: the stored image source is left
exactly as it was (in particular, unset stays unset — never half set). -/
theorem openFile_failure_preserves_image (isfile : String → Bool)
    (imageAt : String → PILFile) (cur : Option PILFile) (filepath : String)
    (h : filepath.length = 0 ∨ isfile filepath = false) :
    openFile isfile imageAt cur filepath = cur := by
  unfold openFile
  rcases h with h | h
  · rw [if_neg]
    rintro ⟨hp, -⟩
    omega
  · rw [if_neg]
    rintro ⟨-, hp⟩
    rw [h] at hp
    exact Bool.false_ne_true hp

/-- C9 witness: a nonexistent path and an empty path both leave an unset
image source unset. -/
theorem openFile_failure_preserves_image_witness :
    openFile (fun _ => false) (fun _ => samplePIL) none "missing.tif" = none
  ∧ openFile (fun _ => true) (fun _ => samplePIL) none "" = none :=
  ⟨openFile_failure_preserves_image _ _ _ _ (Or.inr rfl),
   openFile_failure_preserves_image _ _ _ _ (Or.inl rfl)⟩

/-- `wheelEvent` (lines 326-344) acting on the scrollbar `(value, maximum)`
states; `wsf` is the wheel-scrolls-frame flag, `deltaY` the wheel's vertical
angle delta. With no scrollbars, or with the mode off, or with a single
position on the last scrollbar, the scrollbars are untouched (the event
falls through to zooming). -/
def wheelEvent (sbs : List (Nat × Nat)) (wsf : Bool) (deltaY : Int) :
    List (Nat × Nat) :=
  match sbs.getLast? with
  | none => sbs
  | some vm =>
    if wsf = true ∧ 0 < vm.2 then
      if deltaY < 0 then
        if vm.1 < vm.2 then sbs.dropLast ++ [(vm.1 + 1, vm.2)] else sbs
      else
        if 0 < vm.1 then sbs.dropLast ++ [(vm.1 - 1, vm.2)] else sbs
    else sbs

/-- C10: with at least one navigation control, wheel-scrolls-frame mode on,
and the last axis showing more than one position (maximum > 0), a wheel
event never touches the other axes (the prefix before the last control is
preserved), and on the last axis it adds exactly 1 on wheel-down
(`deltaY < 0`) when below the maximum, subtracts exactly 1 on wheel-up
(`deltaY > 0`) when above 0, and leaves everything unchanged at the
respective boundary — the index never leaves `[0, maximum]`. -/
theorem wheelEvent_last_axis (sbs : List (Nat × Nat)) (v m : Nat) (deltaY : Int)
    (hlast : sbs.getLast? = some (v, m)) (hm : 0 < m) :
    ((wheelEvent sbs true deltaY).dropLast = sbs.dropLast)
  ∧ (deltaY < 0 → v < m → wheelEvent sbs true deltaY = sbs.dropLast ++ [(v + 1, m)])
  ∧ (deltaY < 0 → v = m → wheelEvent sbs true deltaY = sbs)
  ∧ (0 < deltaY → 0 < v → wheelEvent sbs true deltaY = sbs.dropLast ++ [(v - 1, m)])
  ∧ (0 < deltaY → v = 0 → wheelEvent sbs true deltaY = sbs) := by
  have hcond : (true = true) ∧ 0 < m := ⟨rfl, hm⟩
  unfold wheelEvent
  rw [hlast]
  dsimp only
  rw [if_pos hcond]
  by_cases hdy : deltaY < 0
  · by_cases hv : v < m
    · simp only [if_pos hdy, if_pos hv]
      refine ⟨?_, ?_, ?_, ?_, ?_⟩ <;>
        first
          | trivial
          | exact List.dropLast_concat
          | (intro ha hb; first | trivial | (exfalso; omega))
    · simp only [if_pos hdy, if_neg hv]
      refine ⟨?_, ?_, ?_, ?_, ?_⟩ <;>
        first
          | trivial
          | exact List.dropLast_concat
          | (intro ha hb; first | trivial | (exfalso; omega))
  · by_cases hv : 0 < v
    · simp only [if_neg hdy, if_pos hv]
      refine ⟨?_, ?_, ?_, ?_, ?_⟩ <;>
        first
          | trivial
          | exact List.dropLast_concat
          | (intro ha hb; first | trivial | (exfalso; omega))
    · simp only [if_neg hdy, if_neg hv]
      refine ⟨?_, ?_, ?_, ?_, ?_⟩ <;>
        first
          | trivial
          | exact List.dropLast_concat
          | (intro ha hb; first | trivial | (exfalso; omega))

/-- C10 witness: with controls `[(0, 3), (2, 5)]`, a wheel-down advances the
last control from 2 to 3 and leaves the first untouched. -/
theorem wheelEvent_last_axis_witness :
    wheelEvent [(0, 3), (2, 5)] true (-120) = [(0, 3), (3, 5)] :=
  (wheelEvent_last_axis [(0, 3), (2, 5)] 2 5 (-120) rfl (by decide)).2.1
    (by decide) (by decide)
